import Mathlib

/-!
Shallow embedding of the conversation-session core of the Digital-Companio
frontend (`src/frontend/src/api.ts` and the `ChatInterface` / routing code
of the app component that the same file carries).

The React component state is modelled as an explicit record `ChatState`;
each event handler (`handleSend`, `selectChat`, `confirmDeleteChat`,
`handleNewChat`) becomes a pure function from the state and the outcomes of
its remote calls to the new state together with the list of API calls it
issued.  Remote outcomes are passed in as `Except Unit α` arguments, so that
success and failure paths of the source are both represented.

JavaScript truthiness of the string/null guards (`!input.trim()`, `!id`,
`!deleteId`, `!currentChatId`, `if (data.title)`) is modelled exactly: a
`null` (`Option.none`) and an empty string are both falsy.
-/

/-- Message role, the `'user' | 'model'` union of the source. -/
inductive Role where
  | user
  | model
deriving DecidableEq, Repr

/-- ChatMessage of `api.ts`: `{ role: 'user' | 'model'; parts: string[] }`,
the shape returned by the history endpoint. -/
structure ChatMessage where
  role : Role
  parts : List String
deriving DecidableEq, Repr

/-- ChatSession of `api.ts`: `{ id: string; title: string; created_at: number }`. -/
structure ChatSession where
  id : String
  title : String
  created_at : Nat
deriving DecidableEq, Repr

/-- Message of the app component: `{ role: 'user' | 'model'; content: string }`,
the shape held in the `messages` state (the ConversationView). -/
structure Message where
  role : Role
  content : String
deriving DecidableEq, Repr

/-- Response of the send-message endpoint:
`{ response: string, chat_id: string, title?: string }`. -/
structure SendResponse where
  response : String
  chat_id : String
  title : Option String
deriving DecidableEq, Repr

/-- One remote API call issued by an event handler, recorded with the
arguments the source passes. -/
inductive ApiCall where
  | createChat (title : String)
  | sendMessage (chatId : String) (message : String)
  | getHistory (chatId : String)
  | deleteChat (chatId : String)
deriving DecidableEq, Repr

/-- Component state of `ChatInterface`: the `useState` hooks that the
conversation-session claims are about (`input`, `messages`, `chats`,
`currentChatId`, `loading`, `deleteId`). -/
structure ChatState where
  input : String
  messages : List Message
  chats : List ChatSession
  currentChatId : Option String
  loading : Bool
  deleteId : Option String
deriving DecidableEq, Repr

/-- JavaScript truthiness test for a nullable string: `null` and `''` are
falsy, every other string is truthy. -/
def falsyStr : Option String → Bool
  | none => true
  | some s => s.isEmpty

/-- Model of JavaScript `String.prototype.trim`, used by the source's
`input.trim()` guard: strips leading and trailing whitespace.  Written by
structural recursion over the character list so that concrete instances
evaluate in the kernel. -/
def jsTrim (s : String) : String :=
  String.mk (((s.data.dropWhile Char.isWhitespace).reverse.dropWhile Char.isWhitespace).reverse)

/-- Synthetic model-role message appended by `handleSend`'s catch block. -/
def sendErrorMessage : Message :=
  { role := Role.model, content := "Error: Could not reach the AI companion." }

/-- When the send response carries a truthy `title`, `handleSend` mutates
`newChat.title` before prepending it (`if (data.title) newChat.title = data.title`). -/
def applyTitle (newChat : ChatSession) (title : Option String) : ChatSession :=
  match title with
  | none => newChat
  | some t => if t.isEmpty then newChat else { newChat with title := t }

/-- handleSend of `ChatInterface`.  `createRes` is the outcome of the
`createChat()` call (consulted only on the no-active-session path),
`sendRes` the outcome of the `sendMessage` call.  Returns the new state and
the list of API calls issued, in issue order.

Source, line by line: the `!input.trim()` guard; `setInput('')`; the
optimistic `setMessages(prev => [...prev, { role: 'user', content: userMsg }])`;
`setLoading(true)`; then the `try` block branching on `!currentChatId`
(create chat, `setCurrentChatId(newChat.id)`, send, append reply, apply the
returned title, `setChats([newChat, ...chats])`; or send against the current
id and append the reply); the `catch` appending `sendErrorMessage`; the
`finally` clearing `loading`. -/
def handleSend (s : ChatState) (createRes : Except Unit ChatSession)
    (sendRes : Except Unit SendResponse) : ChatState × List ApiCall :=
  if (jsTrim s.input).isEmpty then (s, [])
  else
    let userMsg := s.input
    let s1 : ChatState :=
      { s with
        input := ""
        messages := s.messages ++ [{ role := Role.user, content := userMsg }]
        loading := true }
    if falsyStr s1.currentChatId then
      match createRes with
      | Except.error _ =>
          ({ s1 with
              messages := s1.messages ++ [sendErrorMessage]
              loading := false },
            [ApiCall.createChat "New Chat"])
      | Except.ok newChat =>
          let s2 := { s1 with currentChatId := some newChat.id }
          match sendRes with
          | Except.error _ =>
              ({ s2 with
                  messages := s2.messages ++ [sendErrorMessage]
                  loading := false },
                [ApiCall.createChat "New Chat", ApiCall.sendMessage newChat.id userMsg])
          | Except.ok data =>
              ({ s2 with
                  messages := s2.messages ++ [{ role := Role.model, content := data.response }]
                  chats := applyTitle newChat data.title :: s2.chats
                  loading := false },
                [ApiCall.createChat "New Chat", ApiCall.sendMessage newChat.id userMsg])
    else
      let cid := (s1.currentChatId).getD ""
      match sendRes with
      | Except.error _ =>
          ({ s1 with
              messages := s1.messages ++ [sendErrorMessage]
              loading := false },
            [ApiCall.sendMessage cid userMsg])
      | Except.ok data =>
          ({ s1 with
              messages := s1.messages ++ [{ role := Role.model, content := data.response }]
              loading := false },
            [ApiCall.sendMessage cid userMsg])

/-- Mapping applied to the history payload in `selectChat`:
`history.map(h => ({ role: h.role, content: h.parts[0] }))`.
An out-of-bounds `parts[0]` is modelled as the empty string. -/
def mapHistory (history : List ChatMessage) : List Message :=
  history.map (fun h => { role := h.role, content := h.parts.headD "" })

/-- First half of `selectChat`, up to the `await getHistory(id)` suspension
point: `setCurrentChatId(id); setMessages([])` and the request is issued. -/
def selectChatStart (s : ChatState) (cid : String) : ChatState :=
  { s with currentChatId := some cid, messages := [] }

/-- Second half of `selectChat`, after the `await getHistory(id)` resolves:
on success the fetched history is mapped and stored with `setMessages(mapped)`
unconditionally — the source compares nothing against the current chat id;
on failure the `catch` only logs, leaving the state as it was. -/
def selectChatComplete (s : ChatState) (histRes : Except Unit (List ChatMessage)) :
    ChatState :=
  match histRes with
  | Except.error _ => s
  | Except.ok history => { s with messages := mapHistory history }

/-- selectChat of `ChatInterface`, run to completion with the history fetch
outcome `histRes`.  The `if (!id) return` guard makes it a no-op on `null`
and on the empty string. -/
def selectChat (s : ChatState) (id : Option String)
    (histRes : Except Unit (List ChatMessage)) : ChatState × List ApiCall :=
  if falsyStr id then (s, [])
  else
    let cid := id.getD ""
    (selectChatComplete (selectChatStart s cid) histRes, [ApiCall.getHistory cid])

/-- handleNewChat of `ChatInterface`: `setCurrentChatId(null); setMessages([])`. -/
def handleNewChat (s : ChatState) : ChatState :=
  { s with currentChatId := none, messages := [] }

/-- confirmDeleteChat of `ChatInterface`.  `deleteRes` is the outcome of the
remote `deleteChat(id)` call, `histRes` the outcome of the history fetch of
the successor `selectChat` when one is issued.

Source: `if (!deleteId) return`, capture `id`, `setDeleteId(null)`; in the
`try`, await the remote delete, filter the id out of `chats`, and when the
deleted id was the current one either `selectChat(updated[0].id)` or
`handleNewChat()`; the `catch` only logs. -/
def confirmDeleteChat (s : ChatState) (deleteRes : Except Unit Unit)
    (histRes : Except Unit (List ChatMessage)) : ChatState × List ApiCall :=
  if falsyStr s.deleteId then (s, [])
  else
    let id := (s.deleteId).getD ""
    let s1 := { s with deleteId := none }
    match deleteRes with
    | Except.error _ => (s1, [ApiCall.deleteChat id])
    | Except.ok _ =>
        let updated := s1.chats.filter (fun c => c.id ≠ id)
        let s2 := { s1 with chats := updated }
        if s2.currentChatId = some id then
          match updated with
          | [] => (handleNewChat s2, [ApiCall.deleteChat id])
          | c :: _ =>
              let r := selectChat s2 (some c.id) histRes
              (r.1, ApiCall.deleteChat id :: r.2)
        else (s2, [ApiCall.deleteChat id])

/-- Browser-level state read and written by the axios response interceptor:
the current `window.location.pathname` and the `token` entry of
`localStorage`. -/
structure BrowserState where
  pathname : String
  token : Option String
deriving DecidableEq, Repr

/-- Result of the axios response-error interceptor: the browser state after
its side effects, and whether the error is propagated (rejected) to the
caller. -/
structure InterceptResult where
  browser : BrowserState
  rejected : Bool
deriving DecidableEq, Repr

/-- Error branch of `axios.interceptors.response.use`: when
`error.response?.status === 401` and the current path is neither `/login`
nor `/register`, remove the stored token and set `window.location.href` to
`/login`; in every case the interceptor returns `Promise.reject(error)`.
`status = none` models an error without a response (network failure). -/
def onResponseError (b : BrowserState) (status : Option Nat) : InterceptResult :=
  if status = some 401 then
    if b.pathname ≠ "/login" ∧ b.pathname ≠ "/register" then
      { browser := { pathname := "/login", token := none }, rejected := true }
    else
      { browser := b, rejected := true }
  else
    { browser := b, rejected := true }

/-- Bool test whether an `Except` outcome is the error case (a thrown remote
call). -/
def isErr {α : Type} : Except Unit α → Bool
  | Except.error _ => true
  | Except.ok _ => false

/-- Failure condition of a `handleSend` run: on the no-active-session path the
`createChat` or the `sendMessage` call throws, on the active-session path the
`sendMessage` call throws. -/
def sendRunFailed (s : ChatState) (createRes : Except Unit ChatSession)
    (sendRes : Except Unit SendResponse) : Bool :=
  if falsyStr s.currentChatId then
    isErr createRes || isErr sendRes
  else
    isErr sendRes

/-- C1: a send initiated with `currentChatId` null and non-empty trimmed input
issues exactly one `createChat` call followed by exactly one `sendMessage`
call using the id returned by the create call, and that id becomes the
active session id (whatever the send outcome). -/
theorem C1_lazy_provisioning (s : ChatState) (newChat : ChatSession)
    (sendRes : Except Unit SendResponse)
    (hcur : s.currentChatId = none) (htrim : (jsTrim s.input).isEmpty = false) :
    (handleSend s (Except.ok newChat) sendRes).2
      = [ApiCall.createChat "New Chat", ApiCall.sendMessage newChat.id s.input]
    ∧ (handleSend s (Except.ok newChat) sendRes).1.currentChatId = some newChat.id := by
  unfold handleSend
  cases sendRes <;> simp [htrim, hcur, falsyStr]

/-- Witness for C1 at a concrete state: empty registry, input `"Hello"`,
server returns session id `"S1"`. -/
theorem C1_lazy_provisioning_witness :
    (handleSend ⟨"Hello", [], [], none, false, none⟩
        (Except.ok ⟨"S1", "New Chat", 0⟩) (Except.ok ⟨"hi!", "S1", none⟩)).2
      = [ApiCall.createChat "New Chat", ApiCall.sendMessage "S1" "Hello"]
    ∧ (handleSend ⟨"Hello", [], [], none, false, none⟩
        (Except.ok ⟨"S1", "New Chat", 0⟩) (Except.ok ⟨"hi!", "S1", none⟩)).1.currentChatId
      = some "S1" :=
  C1_lazy_provisioning ⟨"Hello", [], [], none, false, none⟩ ⟨"S1", "New Chat", 0⟩
    (Except.ok ⟨"hi!", "S1", none⟩) rfl (by decide)

/-- C10: an input whose trimmed form is empty makes `handleSend` a complete
no-op: the state is unchanged (no message appended, input not cleared,
loading flag untouched) and no API call is issued. -/
theorem C10_blank_input_noop (s : ChatState) (createRes : Except Unit ChatSession)
    (sendRes : Except Unit SendResponse) (htrim : (jsTrim s.input).isEmpty = true) :
    handleSend s createRes sendRes = (s, []) := by
  unfold handleSend
  simp [htrim]

/-- Witness for C10 at a concrete whitespace-only input. -/
theorem C10_blank_input_noop_witness :
    handleSend ⟨"  \t ", [⟨Role.user, "old"⟩], [⟨"S1", "T", 0⟩], some "S1", false, none⟩
        (Except.ok ⟨"S2", "New Chat", 0⟩) (Except.ok ⟨"r", "S2", none⟩)
      = (⟨"  \t ", [⟨Role.user, "old"⟩], [⟨"S1", "T", 0⟩], some "S1", false, none⟩, []) :=
  C10_blank_input_noop ⟨"  \t ", [⟨Role.user, "old"⟩], [⟨"S1", "T", 0⟩], some "S1", false, none⟩
    (Except.ok ⟨"S2", "New Chat", 0⟩) (Except.ok ⟨"r", "S2", none⟩) (by decide)

/-- C8: on both successful send paths the resulting ConversationView is the
previous view with the user's message and then the assistant's reply
appended, in that order. -/
theorem C8_success_view_order :
    (∀ (s : ChatState) (newChat : ChatSession) (data : SendResponse),
        s.currentChatId = none → (jsTrim s.input).isEmpty = false →
        (handleSend s (Except.ok newChat) (Except.ok data)).1.messages
          = s.messages ++ [{ role := Role.user, content := s.input },
              { role := Role.model, content := data.response }])
    ∧ (∀ (s : ChatState) (cid : String) (createRes : Except Unit ChatSession)
        (data : SendResponse),
        s.currentChatId = some cid → cid.isEmpty = false →
        (jsTrim s.input).isEmpty = false →
        (handleSend s createRes (Except.ok data)).1.messages
          = s.messages ++ [{ role := Role.user, content := s.input },
              { role := Role.model, content := data.response }]) := by
  constructor
  · intro s newChat data hcur htrim
    unfold handleSend
    simp [htrim, hcur, falsyStr]
  · intro s cid createRes data hcur hcid htrim
    unfold handleSend
    cases createRes <;> simp [htrim, hcur, falsyStr, hcid]

/-- Witness for C8: one concrete run on each path. -/
theorem C8_success_view_order_witness :
    (handleSend ⟨"Hi", [], [], none, false, none⟩
        (Except.ok ⟨"S1", "New Chat", 0⟩) (Except.ok ⟨"yo", "S1", none⟩)).1.messages
      = [{ role := Role.user, content := "Hi" }, { role := Role.model, content := "yo" }]
    ∧ (handleSend ⟨"Q", [⟨Role.user, "old"⟩], [], some "S9", false, none⟩
        (Except.error ()) (Except.ok ⟨"A", "S9", none⟩)).1.messages
      = [⟨Role.user, "old"⟩, { role := Role.user, content := "Q" },
          { role := Role.model, content := "A" }] :=
  ⟨C8_success_view_order.1 ⟨"Hi", [], [], none, false, none⟩ ⟨"S1", "New Chat", 0⟩
      ⟨"yo", "S1", none⟩ rfl (by decide),
    C8_success_view_order.2 ⟨"Q", [⟨Role.user, "old"⟩], [], some "S9", false, none⟩ "S9"
      (Except.error ()) ⟨"A", "S9", none⟩ rfl (by decide) (by decide)⟩

/-- C5: when a send's remote call fails on whichever path was taken, the
optimistic user message stays, exactly one synthetic model-role error message
is appended after it, the loading flag ends cleared, and the session list is
untouched (so no session is removed). -/
theorem C5_failed_send (s : ChatState) (createRes : Except Unit ChatSession)
    (sendRes : Except Unit SendResponse) (htrim : (jsTrim s.input).isEmpty = false)
    (hfail : sendRunFailed s createRes sendRes = true) :
    (handleSend s createRes sendRes).1.messages
      = s.messages ++ [{ role := Role.user, content := s.input }, sendErrorMessage]
    ∧ (handleSend s createRes sendRes).1.loading = false
    ∧ (handleSend s createRes sendRes).1.chats = s.chats := by
  unfold handleSend
  unfold sendRunFailed at hfail
  cases hfs : falsyStr s.currentChatId <;> rw [hfs] at hfail <;>
    cases createRes <;> cases sendRes <;>
    simp_all [htrim, isErr]

/-- Witness for C5: a concrete failed send against an existing session. -/
theorem C5_failed_send_witness :
    (handleSend ⟨"Hi", [⟨Role.model, "welcome"⟩], [⟨"S1", "T", 0⟩], some "S1", false, none⟩
        (Except.ok ⟨"S2", "New Chat", 0⟩) (Except.error ())).1.messages
      = [⟨Role.model, "welcome"⟩, { role := Role.user, content := "Hi" }, sendErrorMessage]
    ∧ (handleSend ⟨"Hi", [⟨Role.model, "welcome"⟩], [⟨"S1", "T", 0⟩], some "S1", false, none⟩
        (Except.ok ⟨"S2", "New Chat", 0⟩) (Except.error ())).1.loading = false
    ∧ (handleSend ⟨"Hi", [⟨Role.model, "welcome"⟩], [⟨"S1", "T", 0⟩], some "S1", false, none⟩
        (Except.ok ⟨"S2", "New Chat", 0⟩) (Except.error ())).1.chats = [⟨"S1", "T", 0⟩] :=
  C5_failed_send ⟨"Hi", [⟨Role.model, "welcome"⟩], [⟨"S1", "T", 0⟩], some "S1", false, none⟩
    (Except.ok ⟨"S2", "New Chat", 0⟩) (Except.error ()) (by decide) (by decide)

/-- C4: a 401 received away from the login and register surfaces removes the
stored token and navigates to `/login`; a 401 received on either of those
surfaces leaves the browser state untouched; in both cases the failure is
rejected to the caller. -/
theorem C4_unauthorized_handling (b : BrowserState) :
    ((b.pathname ≠ "/login" → b.pathname ≠ "/register" →
        onResponseError b (some 401)
          = { browser := { pathname := "/login", token := none }, rejected := true })
      ∧ (b.pathname = "/login" ∨ b.pathname = "/register" →
        onResponseError b (some 401) = { browser := b, rejected := true })) := by
  constructor
  · intro h1 h2
    simp [onResponseError, h1, h2]
  · intro h
    rcases h with h | h <;> simp [onResponseError, h]

/-- Witness for C4: a 401 on the chat surface versus a 401 on the login
surface. -/
theorem C4_unauthorized_handling_witness :
    onResponseError ⟨"/", some "tok"⟩ (some 401)
      = { browser := { pathname := "/login", token := none }, rejected := true }
    ∧ onResponseError ⟨"/login", some "tok"⟩ (some 401)
      = { browser := ⟨"/login", some "tok"⟩, rejected := true } :=
  ⟨(C4_unauthorized_handling ⟨"/", some "tok"⟩).1 (by decide) (by decide),
    (C4_unauthorized_handling ⟨"/login", some "tok"⟩).2 (Or.inl rfl)⟩

/-- C7: a single completed selection of a non-empty session id replaces the
view entirely: on success the view is exactly the mapped fetched history, on
failure it is left empty, and in both cases the session list is untouched. -/
theorem C7_select_replaces_view (s : ChatState) (cid : String)
    (histRes : Except Unit (List ChatMessage)) (hcid : cid.isEmpty = false) :
    (∀ h, histRes = Except.ok h →
        (selectChat s (some cid) histRes).1.messages = mapHistory h)
    ∧ (∀ e, histRes = Except.error e →
        (selectChat s (some cid) histRes).1.messages = [])
    ∧ (selectChat s (some cid) histRes).1.chats = s.chats
    ∧ (selectChat s (some cid) histRes).1.currentChatId = some cid := by
  refine ⟨?_, ?_, ?_, ?_⟩ <;>
    first
      | (intro h hh; subst hh;
          simp [selectChat, falsyStr, hcid, selectChatComplete, selectChatStart])
      | (cases histRes <;>
          simp [selectChat, falsyStr, hcid, selectChatComplete, selectChatStart])

/-- Witness for C7: concrete selection whose fetch returns one message. -/
theorem C7_select_replaces_view_witness :
    (∀ h, (Except.ok [⟨Role.user, ["hey"]⟩] : Except Unit (List ChatMessage)) = Except.ok h →
        (selectChat ⟨"", [⟨Role.model, "stale"⟩], [⟨"S2", "T", 0⟩], some "S1", false, none⟩
            (some "S2") (Except.ok [⟨Role.user, ["hey"]⟩])).1.messages = mapHistory h)
    ∧ (∀ e, (Except.ok [⟨Role.user, ["hey"]⟩] : Except Unit (List ChatMessage))
          = Except.error e →
        (selectChat ⟨"", [⟨Role.model, "stale"⟩], [⟨"S2", "T", 0⟩], some "S1", false, none⟩
            (some "S2") (Except.ok [⟨Role.user, ["hey"]⟩])).1.messages = [])
    ∧ (selectChat ⟨"", [⟨Role.model, "stale"⟩], [⟨"S2", "T", 0⟩], some "S1", false, none⟩
        (some "S2") (Except.ok [⟨Role.user, ["hey"]⟩])).1.chats = [⟨"S2", "T", 0⟩]
    ∧ (selectChat ⟨"", [⟨Role.model, "stale"⟩], [⟨"S2", "T", 0⟩], some "S1", false, none⟩
        (some "S2") (Except.ok [⟨Role.user, ["hey"]⟩])).1.currentChatId = some "S2" :=
  C7_select_replaces_view
    ⟨"", [⟨Role.model, "stale"⟩], [⟨"S2", "T", 0⟩], some "S1", false, none⟩
    "S2" (Except.ok [⟨Role.user, ["hey"]⟩]) (by decide)

/-- C9: when the remote delete throws, `confirmDeleteChat` leaves the session
list, the active session id and the ConversationView exactly as they were. -/
theorem C9_delete_failure_atomic (s : ChatState)
    (histRes : Except Unit (List ChatMessage)) :
    (confirmDeleteChat s (Except.error ()) histRes).1.chats = s.chats
    ∧ (confirmDeleteChat s (Except.error ()) histRes).1.currentChatId = s.currentChatId
    ∧ (confirmDeleteChat s (Except.error ()) histRes).1.messages = s.messages := by
  unfold confirmDeleteChat
  cases hf : falsyStr s.deleteId <;> simp [hf]

/-- C6: a successful confirmed delete removes the id from the session list;
if the deleted id was the active one, the first remaining session becomes
active when one exists and otherwise the state reverts to no-active-session
with an empty view; a non-active delete leaves the active id unchanged. -/
theorem C6_delete_successor (s : ChatState) (id : String)
    (histRes : Except Unit (List ChatMessage))
    (hdel : s.deleteId = some id) (hid : id.isEmpty = false)
    (hids : ∀ c ∈ s.chats, c.id.isEmpty = false) :
    (confirmDeleteChat s (Except.ok ()) histRes).1.chats
      = s.chats.filter (fun c => c.id ≠ id)
    ∧ (s.currentChatId = some id →
        (match s.chats.filter (fun c => c.id ≠ id) with
          | [] => (confirmDeleteChat s (Except.ok ()) histRes).1.currentChatId = none
              ∧ (confirmDeleteChat s (Except.ok ()) histRes).1.messages = []
          | c :: _ =>
              (confirmDeleteChat s (Except.ok ()) histRes).1.currentChatId = some c.id))
    ∧ (s.currentChatId ≠ some id →
        (confirmDeleteChat s (Except.ok ()) histRes).1.currentChatId = s.currentChatId) := by
  have hfalsy : falsyStr s.deleteId = false := by rw [hdel]; simpa [falsyStr] using hid
  unfold confirmDeleteChat
  rw [hfalsy]
  simp only [Bool.false_eq_true, if_false, hdel, Option.getD_some]
  by_cases hcur : s.currentChatId = some id
  · cases hfilt : s.chats.filter (fun c => c.id ≠ id) with
    | nil => simp [hcur, hfilt, handleNewChat]
    | cons c rest =>
        have hc : c ∈ s.chats := by
          have : c ∈ s.chats.filter (fun c => c.id ≠ id) := by
            rw [hfilt]; exact List.mem_cons_self c rest
          exact List.mem_of_mem_filter this
        have hcne : c.id.isEmpty = false := hids c hc
        cases histRes <;>
          simp [hcur, hfilt, selectChat, falsyStr, hcne, selectChatComplete,
            selectChatStart]
  · simp [hcur]

/-- Witness for C6: deleting the active session `"a"` out of `["a", "b"]`
removes it and makes `"b"` active. -/
theorem C6_delete_successor_witness :
    (confirmDeleteChat ⟨"", [⟨Role.user, "m"⟩], [⟨"a", "A", 0⟩, ⟨"b", "B", 1⟩],
        some "a", false, some "a"⟩ (Except.ok ()) (Except.ok [])).1.chats = [⟨"b", "B", 1⟩]
    ∧ (confirmDeleteChat ⟨"", [⟨Role.user, "m"⟩], [⟨"a", "A", 0⟩, ⟨"b", "B", 1⟩],
        some "a", false, some "a"⟩ (Except.ok ()) (Except.ok [])).1.currentChatId
      = some "b" := by
  have h := C6_delete_successor
    ⟨"", [⟨Role.user, "m"⟩], [⟨"a", "A", 0⟩, ⟨"b", "B", 1⟩], some "a", false, some "a"⟩
    "a" (Except.ok []) rfl (by decide) (by decide)
  exact ⟨h.1.trans (by decide), h.2.1 rfl⟩

/-- C2: the source has no stale-response guard.  Concrete interleaving:
select `"S1"`, then select `"S2"`; `"S2"`'s history fetch resolves first
(with the empty history), then `"S1"`'s stale fetch resolves.  The final
state targets `"S2"` but displays `"S1"`'s history, which differs from
`"S2"`'s — the late response is applied, not discarded. -/
theorem C2_stale_response_displayed :
    (selectChatComplete
        (selectChatComplete
          (selectChatStart (selectChatStart ⟨"", [], [], none, false, none⟩ "S1") "S2")
          (Except.ok []))
        (Except.ok [⟨Role.user, ["from S1"]⟩])).currentChatId = some "S2"
    ∧ (selectChatComplete
        (selectChatComplete
          (selectChatStart (selectChatStart ⟨"", [], [], none, false, none⟩ "S1") "S2")
          (Except.ok []))
        (Except.ok [⟨Role.user, ["from S1"]⟩])).messages
      = [{ role := Role.user, content := "from S1" }]
    ∧ [{ role := Role.user, content := "from S1" }] ≠ mapHistory [] := by
  refine ⟨rfl, rfl, by decide⟩

/-- C3 counterexample: a send against the existing active session `"c1"`
whose response carries the new title `"NewTitle"` leaves the session list's
titles untouched — the active session's title is not updated. -/
theorem C3_title_not_updated_on_existing_path :
    ((handleSend ⟨"hi", [], [⟨"c1", "Old", 0⟩], some "c1", false, none⟩
        (Except.error ()) (Except.ok ⟨"reply", "c1", some "NewTitle"⟩)).1.chats
      = [⟨"c1", "Old", 0⟩])
    ∧ ("Old" : String) ≠ "NewTitle" := by
  exact ⟨by decide, by decide⟩

/-- C3 amended: the title returned by a send is applied only on the
no-active-session path, where the newly created session is prepended with
that title; on the pre-existing-active-session path the session list — and
with it every title — is left unchanged, the response's title being
ignored. -/
theorem C3_title_update_scoped :
    (∀ (s : ChatState) (newChat : ChatSession) (data : SendResponse) (t : String),
        s.currentChatId = none → (jsTrim s.input).isEmpty = false →
        data.title = some t → t.isEmpty = false →
        (handleSend s (Except.ok newChat) (Except.ok data)).1.chats
          = { newChat with title := t } :: s.chats)
    ∧ (∀ (s : ChatState) (cid : String) (createRes : Except Unit ChatSession)
        (sendRes : Except Unit SendResponse),
        s.currentChatId = some cid → cid.isEmpty = false →
        (handleSend s createRes sendRes).1.chats = s.chats) := by
  constructor
  · intro s newChat data t hcur htrim htitle ht
    unfold handleSend
    simp [htrim, hcur, falsyStr, applyTitle, htitle, ht]
  · intro s cid createRes sendRes hcur hcid
    unfold handleSend
    cases htrim : (jsTrim s.input).isEmpty <;>
      cases createRes <;> cases sendRes <;>
      simp [htrim, hcur, falsyStr, hcid]

/-- Witness for the amended C3: a provisioning send whose response carries
the title `"T1"`, and an existing-session send whose response also carries a
title but leaves the list unchanged. -/
theorem C3_title_update_scoped_witness :
    (handleSend ⟨"Hi", [], [], none, false, none⟩
        (Except.ok ⟨"S1", "New Chat", 0⟩) (Except.ok ⟨"yo", "S1", some "T1"⟩)).1.chats
      = [⟨"S1", "T1", 0⟩]
    ∧ (handleSend ⟨"Hi", [], [⟨"S9", "Keep", 3⟩], some "S9", false, none⟩
        (Except.error ()) (Except.ok ⟨"yo", "S9", some "T1"⟩)).1.chats
      = [⟨"S9", "Keep", 3⟩] :=
  ⟨C3_title_update_scoped.1 ⟨"Hi", [], [], none, false, none⟩ ⟨"S1", "New Chat", 0⟩
      ⟨"yo", "S1", some "T1"⟩ "T1" rfl (by decide) rfl (by decide),
    C3_title_update_scoped.2 ⟨"Hi", [], [⟨"S9", "Keep", 3⟩], some "S9", false, none⟩ "S9"
      (Except.error ()) (Except.ok ⟨"yo", "S9", some "T1"⟩) rfl (by decide)⟩
